import Mathlib

/-!
Shallow embedding of the spend-limited session engine of the agent-protocol
repository, together with theorems settling the specification claims.

Amounts at the API boundary are decimal numbers of whole coins; we model them
as exact rationals (`ℚ`).  Addresses, transaction signatures and key material
are modelled as the opaque strings / byte lists the source passes around.
Chain-SDK primitives (ed25519 derivation, base58, secp256k1 address
derivation) are external libraries, not repository code; they enter the
embedding as abstract deterministic function parameters.
-/

namespace AgentProtocol

/-! ## SpendGuard: `SessionValidator` (packages/core/src/tools.ts) -/

/-- Security configuration for agent sessions (`SessionConfig` in
packages/core/src/tools.ts). -/
structure SessionConfig where
  maxSpendSOL : ℚ
  maxSpendETH : ℚ
  maxPerTxSOL : ℚ
  maxPerTxETH : ℚ
  allowedMerchantsSOL : Option (List String) := none
  allowedMerchantsETH : Option (List String) := none
deriving Repr, DecidableEq

/-- The `DEFAULT_SESSION_CONFIG` constant of the source. -/
def DEFAULT_SESSION_CONFIG : SessionConfig :=
  { maxSpendSOL := 1/10
    maxSpendETH := 1/100
    maxPerTxSOL := 1/20
    maxPerTxETH := 1/200 }

/-- The state of a `SessionValidator` instance: the immutable config captured
by the constructor plus the two mutable spend counters (both initialised to
`0` in the class body). -/
structure SessionValidator where
  config : SessionConfig
  spentSOL : ℚ
  spentETH : ℚ
deriving Repr, DecidableEq

/-- The constructor `new SessionValidator(config)`.  Its body is empty in the
source: it stores the config and leaves the field initialisers
`spentSOL = 0`, `spentETH = 0`; it performs no validation and cannot fail. -/
def mkSessionValidator (config : SessionConfig) : SessionValidator :=
  { config := config, spentSOL := 0, spentETH := 0 }

/-- Tagged rendering of the `Error`s thrown by `validateSOL` / `validateETH`
("Security Blocked: ..." messages). -/
inductive SecurityError where
  | recipientNotAllowed (toAddress : String)
  | perTransactionLimitExceeded (amount limit : ℚ)
  | sessionLimitExceeded (remaining : ℚ)
deriving Repr, DecidableEq

/-- The truthiness test `config.allowedMerchants && config.allowedMerchants.length > 0`
followed by `!config.allowedMerchants.includes(toAddress)`: the allow-list
blocks a recipient exactly when it is present, non-empty and misses the
recipient. -/
def allowlistBlocks (allowed : Option (List String)) (toAddress : String) : Bool :=
  match allowed with
  | some l => 0 < l.length && !(l.contains toAddress)
  | none => false

/-- `SessionValidator.validateSOL(toAddress, amount)`: throws on allow-list
violation, then on `amount > maxPerTxSOL`, then on
`spentSOL + amount > maxSpendSOL`; otherwise returns normally.  It reads but
never writes the spend counters. -/
def SessionValidator.validateSOL (v : SessionValidator) (toAddress : String) (amount : ℚ) :
    Except SecurityError Unit :=
  if allowlistBlocks v.config.allowedMerchantsSOL toAddress then
    .error (.recipientNotAllowed toAddress)
  else if amount > v.config.maxPerTxSOL then
    .error (.perTransactionLimitExceeded amount v.config.maxPerTxSOL)
  else if v.spentSOL + amount > v.config.maxSpendSOL then
    .error (.sessionLimitExceeded (v.config.maxSpendSOL - v.spentSOL))
  else
    .ok ()

/-- `SessionValidator.validateETH(toAddress, amount)`: same three checks
against the ETH fields. -/
def SessionValidator.validateETH (v : SessionValidator) (toAddress : String) (amount : ℚ) :
    Except SecurityError Unit :=
  if allowlistBlocks v.config.allowedMerchantsETH toAddress then
    .error (.recipientNotAllowed toAddress)
  else if amount > v.config.maxPerTxETH then
    .error (.perTransactionLimitExceeded amount v.config.maxPerTxETH)
  else if v.spentETH + amount > v.config.maxSpendETH then
    .error (.sessionLimitExceeded (v.config.maxSpendETH - v.spentETH))
  else
    .ok ()

/-- `SessionValidator.addSpentSOL(amount)`: unconditional increment of the SOL
spend counter. -/
def SessionValidator.addSpentSOL (v : SessionValidator) (amount : ℚ) : SessionValidator :=
  { v with spentSOL := v.spentSOL + amount }

/-- `SessionValidator.addSpentETH(amount)`: unconditional increment of the ETH
spend counter. -/
def SessionValidator.addSpentETH (v : SessionValidator) (amount : ℚ) : SessionValidator :=
  { v with spentETH := v.spentETH + amount }

/-- Result record of `SessionValidator.getUsage()`. -/
structure Usage where
  spentSOL : ℚ
  spentETH : ℚ
  remainingSOL : ℚ
  remainingETH : ℚ
deriving Repr, DecidableEq

/-- `SessionValidator.getUsage()`. -/
def SessionValidator.getUsage (v : SessionValidator) : Usage :=
  { spentSOL := v.spentSOL
    spentETH := v.spentETH
    remainingSOL := v.config.maxSpendSOL - v.spentSOL
    remainingETH := v.config.maxSpendETH - v.spentETH }

/-! The public mutating/validating surface of the class, as a step alphabet.
`validateSOL`/`validateETH` are state readers: running one leaves the
instance unchanged.  `addSpentSOL`/`addSpentETH` write the counters. -/

/-- One public call on a `SessionValidator` instance. -/
inductive GuardOp where
  | validateSOL (toAddress : String) (amount : ℚ)
  | validateETH (toAddress : String) (amount : ℚ)
  | addSpentSOL (amount : ℚ)
  | addSpentETH (amount : ℚ)
deriving Repr, DecidableEq

/-- Effect of one call on the instance state (the validators throw or return
but never assign a field; the `addSpent` methods assign). -/
def applyGuardOp (v : SessionValidator) (op : GuardOp) : SessionValidator :=
  match op with
  | .validateSOL _ _ => v
  | .validateETH _ _ => v
  | .addSpentSOL a => v.addSpentSOL a
  | .addSpentETH a => v.addSpentETH a

/-- State reached after a sequence of public calls. -/
def runGuardOps (v : SessionValidator) (ops : List GuardOp) : SessionValidator :=
  ops.foldl applyGuardOp v

/-- Guarded spend on SOL: the validate-then-increment composition
(authorization and reservation as one atomic step); a rejection leaves the
state unchanged. -/
def SessionValidator.spendSOL (v : SessionValidator) (toAddress : String) (amount : ℚ) :
    Except SecurityError SessionValidator :=
  match v.validateSOL toAddress amount with
  | .error e => .error e
  | .ok _ => .ok (v.addSpentSOL amount)

/-- Guarded spend on ETH: validate-then-increment as one atomic step. -/
def SessionValidator.spendETH (v : SessionValidator) (toAddress : String) (amount : ℚ) :
    Except SecurityError SessionValidator :=
  match v.validateETH toAddress amount with
  | .error e => .error e
  | .ok _ => .ok (v.addSpentETH amount)

/-- One guarded (atomic validate-and-reserve) authorization step. -/
inductive SpendStep where
  | sol (toAddress : String) (amount : ℚ)
  | eth (toAddress : String) (amount : ℚ)
deriving Repr, DecidableEq

/-- Effect of a guarded authorization: on approval the counter is reserved, on
rejection the state is unchanged. -/
def applySpendStep (v : SessionValidator) (s : SpendStep) : SessionValidator :=
  match s with
  | .sol toAddress a =>
      match v.spendSOL toAddress a with
      | .ok v' => v'
      | .error _ => v
  | .eth toAddress a =>
      match v.spendETH toAddress a with
      | .ok v' => v'
      | .error _ => v

/-- State reached after a sequence of guarded authorizations. -/
def runSpendSteps (v : SessionValidator) (steps : List SpendStep) : SessionValidator :=
  steps.foldl applySpendStep v

/-! ## LedgerAdapter: `transferSOL` (packages/core/src/tools.ts) -/

/-- Lamports per SOL (`LAMPORTS_PER_SOL` from the chain SDK): `10^9`. -/
def LAMPORTS_PER_SOL : ℚ := 1000000000

/-- The transfer instruction `SystemProgram.transfer({fromPubkey, toPubkey,
lamports})` that `transferSOL` builds and submits.  The lamport field is the
number the source computes; the source never checks it is a whole number, so
the field is a rational here. -/
structure SolTransferIx where
  fromPubkey : String
  toPubkey : String
  lamports : ℚ
deriving Repr, DecidableEq

/-- `transferSOL(connection, sessionKey, toAddress, amount)` from
packages/core/src/tools.ts: computes `lamports = amount * LAMPORTS_PER_SOL`,
reads the session balance from the chain (here a parameter, in lamports),
throws `Insufficient funds` when `balance < lamports`, otherwise builds the
transfer instruction and hands it to `sendAndConfirmTransaction`.  Base58
parsing of `toAddress` and the network layer are external; the returned value
is the instruction that is submitted. -/
def transferSOL (balanceLamports : ℚ) (sessionKeyPub : String) (toAddress : String)
    (amount : ℚ) : Except String SolTransferIx :=
  let lamports := amount * LAMPORTS_PER_SOL
  if balanceLamports < lamports then
    .error "Insufficient funds"
  else
    .ok { fromPubkey := sessionKeyPub, toPubkey := toAddress, lamports := lamports }

/-! ## KeyVault: session key generation and restoration
(packages/core/src/tools.ts).  The cryptographic primitives live in
`@solana/web3.js` and `viem`, outside the repository; they are abstracted as
deterministic functions: `derivePub` (ed25519 public key bytes from the
64-byte secret), `toBase58` (address encoding), `privateKeyToAddress`
(secp256k1 + keccak account address from the hex private key). -/

/-- A `Keypair` value of the Solana SDK: the 64-byte secret and its public
key bytes. -/
structure SolKeypair where
  secretKey : List ℕ
  publicKey : List ℕ
deriving Repr, DecidableEq

/-- `Keypair.generate()`: fresh entropy produces a secret whose public half is
the ed25519 derivation of the secret (the SDK stores the derived public key
alongside the secret). -/
def keypairGenerate (derivePub : List ℕ → List ℕ) (entropySecret : List ℕ) : SolKeypair :=
  { secretKey := entropySecret, publicKey := derivePub entropySecret }

/-- `Keypair.fromSecretKey(Uint8Array.from(secretKey))`: rebuilds the keypair
by re-deriving the public key from the given secret bytes. -/
def keypairFromSecretKey (derivePub : List ℕ → List ℕ) (secretKey : List ℕ) : SolKeypair :=
  { secretKey := secretKey, publicKey := derivePub secretKey }

/-- The `SessionKeys` record of packages/core/src/tools.ts. -/
structure SessionKeys where
  solKeypair : SolKeypair
  solAddress : String
  solSecret : List ℕ
  ethKey : String
  ethAddress : String
deriving Repr, DecidableEq

/-- `generateSessionKeys()`: generates both keys from fresh entropy
(`Keypair.generate()` and `generatePrivateKey()`, whose outputs are the
`solEntropy` / `ethEntropy` parameters) and derives the two addresses;
`solSecret` is `Array.from(solKeypair.secretKey)`. -/
def generateSessionKeys (derivePub : List ℕ → List ℕ) (toBase58 : List ℕ → String)
    (privateKeyToAddress : String → String) (solEntropy : List ℕ) (ethEntropy : String) :
    SessionKeys :=
  let solKeypair := keypairGenerate derivePub solEntropy
  let ethKey := ethEntropy
  { solKeypair := solKeypair
    solAddress := toBase58 solKeypair.publicKey
    solSecret := solKeypair.secretKey
    ethKey := ethKey
    ethAddress := privateKeyToAddress ethKey }

/-- `restoreSolanaKeypair(secretKey)` from packages/core/src/tools.ts. -/
def restoreSolanaKeypair (derivePub : List ℕ → List ℕ) (secretKey : List ℕ) : SolKeypair :=
  keypairFromSecretKey derivePub secretKey

/-- `getEthAddress(privateKey)` from packages/core/src/tools.ts:
`privateKeyToAccount(privateKey).address`. -/
def getEthAddress (privateKeyToAddress : String → String) (privateKey : String) : String :=
  privateKeyToAddress privateKey

/-! ## IntentDispatcher: the `handleSend` tool-call dispatch
(src/app/components/AIAgentModal.tsx, lines 266-300) and the `useAgent`
tool loop. -/

/-- The Gemini response part `data.candidates?.[0]?.content?.parts?.[0]`: a
function call with its arguments, a plain text part, or nothing usable. -/
inductive Candidate where
  | functionCall (name : String) (toAddress : String) (amount : ℚ)
  | text (s : String)
  | empty
deriving Repr, DecidableEq

/-- Outcome of the external transfer call as seen by the dispatcher: the
signature/hash on success, the thrown message on failure. -/
abbrev TransferOutcome := Except String String

/-- Agent-role chat messages appended by the dispatch section of `handleSend`
(src/app/components/AIAgentModal.tsx lines 266-300) for one LLM response.
Known transfer tools append a "Processing ..." progress message and then
exactly one outcome message (success or failure, the missing-session-key
throw included); a text part appends the text (or the fallback).  A
`functionCall` whose name is neither `transferSOL` nor `transferETH` falls
through the if/else-if chain: no branch runs and no message is appended. -/
def handleSendMessages (solKey : Option String) (ethKey : Option String)
    (solOutcome ethOutcome : TransferOutcome) (c : Candidate) : List String :=
  match c with
  | .functionCall name toAddress amount =>
      if name = "transferSOL" then
        let outcome :=
          match solKey with
          | none => "SOL Transfer failed: No SOL session key"
          | some _ =>
              match solOutcome with
              | .ok sig => "SOL Transfer successful! Sig: " ++ sig
              | .error msg => "SOL Transfer failed: " ++ msg
        ["Processing SOL transfer of " ++ toString amount ++ " to " ++ toAddress ++ "...",
         outcome]
      else if name = "transferETH" then
        let outcome :=
          match ethKey with
          | none => "ETH Transfer failed: No ETH session key"
          | some _ =>
              match ethOutcome with
              | .ok h => "ETH Transfer successful! Hash: " ++ h
              | .error msg => "ETH Transfer failed: " ++ msg
        ["Processing ETH transfer of " ++ toString amount ++ " to " ++ toAddress ++ "...",
         outcome]
      else
        []
  | .text s => [s]
  | .empty => ["Sorry, I couldn't understand that."]

/-- Result of a `handleSend` dispatch of a `transferSOL` tool call: what, if
anything, reaches the network. -/
inductive DispatchResult where
  | submitted (ix : SolTransferIx)
  | failed (msg : String)
deriving Repr, DecidableEq

/-- The `transferSOL` branch of `handleSend`
(src/app/components/AIAgentModal.tsx lines 270-281): if a session key exists
it calls `transferSOL(connection, sessionKey, toAddress, amount)` directly —
no `SessionValidator` method is invoked anywhere in `handleSend`. -/
def handleSendTransferSOL (solKey : Option String) (balanceLamports : ℚ)
    (toAddress : String) (amount : ℚ) : DispatchResult :=
  match solKey with
  | none => .failed "No SOL session key"
  | some pub =>
      match transferSOL balanceLamports pub toAddress amount with
      | .ok ix => .submitted ix
      | .error e => .failed e

/-! ## Helper characterizations of the validator -/

/-- A SOL validation returns normally exactly when the allow-list does not
block the recipient and both inclusive ceilings hold. -/
theorem validateSOL_ok_iff (v : SessionValidator) (toAddress : String) (a : ℚ) :
    v.validateSOL toAddress a = .ok () ↔
      allowlistBlocks v.config.allowedMerchantsSOL toAddress = false ∧
      a ≤ v.config.maxPerTxSOL ∧ v.spentSOL + a ≤ v.config.maxSpendSOL := by
  unfold SessionValidator.validateSOL
  split_ifs with h1 h2 h3 <;>
    simp_all [not_lt, le_of_not_lt]

/-- An ETH validation returns normally exactly when the allow-list does not
block the recipient and both inclusive ceilings hold. -/
theorem validateETH_ok_iff (v : SessionValidator) (toAddress : String) (a : ℚ) :
    v.validateETH toAddress a = .ok () ↔
      allowlistBlocks v.config.allowedMerchantsETH toAddress = false ∧
      a ≤ v.config.maxPerTxETH ∧ v.spentETH + a ≤ v.config.maxSpendETH := by
  unfold SessionValidator.validateETH
  split_ifs with h1 h2 h3 <;>
    simp_all [not_lt, le_of_not_lt]

/-- A guarded step never changes the captured configuration. -/
theorem applySpendStep_config (v : SessionValidator) (s : SpendStep) :
    (applySpendStep v s).config = v.config := by
  cases s with
  | sol toAddress a =>
      unfold applySpendStep SessionValidator.spendSOL
      cases h : v.validateSOL toAddress a <;>
        simp [h, SessionValidator.addSpentSOL]
  | eth toAddress a =>
      unfold applySpendStep SessionValidator.spendETH
      cases h : v.validateETH toAddress a <;>
        simp [h, SessionValidator.addSpentETH]

/-- One guarded validate-and-reserve step preserves both session ceilings. -/
theorem applySpendStep_invariant (v : SessionValidator) (s : SpendStep)
    (hS : v.spentSOL ≤ v.config.maxSpendSOL) (hE : v.spentETH ≤ v.config.maxSpendETH) :
    (applySpendStep v s).spentSOL ≤ (applySpendStep v s).config.maxSpendSOL ∧
    (applySpendStep v s).spentETH ≤ (applySpendStep v s).config.maxSpendETH := by
  cases s with
  | sol toAddress a =>
      unfold applySpendStep SessionValidator.spendSOL
      cases h : v.validateSOL toAddress a with
      | error e =>
          simp only [h]
          exact ⟨hS, hE⟩
      | ok u =>
          cases u
          have hok := (validateSOL_ok_iff v toAddress a).mp h
          simp only [h, SessionValidator.addSpentSOL]
          exact ⟨hok.2.2, hE⟩
  | eth toAddress a =>
      unfold applySpendStep SessionValidator.spendETH
      cases h : v.validateETH toAddress a with
      | error e =>
          simp only [h]
          exact ⟨hS, hE⟩
      | ok u =>
          cases u
          have hok := (validateETH_ok_iff v toAddress a).mp h
          simp only [h, SessionValidator.addSpentETH]
          exact ⟨hS, hok.2.2⟩

/-- Any sequence of guarded steps preserves both session ceilings. -/
theorem runSpendSteps_invariant (steps : List SpendStep) (v : SessionValidator)
    (hS : v.spentSOL ≤ v.config.maxSpendSOL) (hE : v.spentETH ≤ v.config.maxSpendETH) :
    (runSpendSteps v steps).spentSOL ≤ (runSpendSteps v steps).config.maxSpendSOL ∧
    (runSpendSteps v steps).spentETH ≤ (runSpendSteps v steps).config.maxSpendETH := by
  induction steps generalizing v with
  | nil => exact ⟨hS, hE⟩
  | cons s rest ih =>
      have h := applySpendStep_invariant v s hS hE
      have hstep : runSpendSteps v (s :: rest) = runSpendSteps (applySpendStep v s) rest := rfl
      rw [hstep]
      exact ih (applySpendStep v s) h.1 h.2

/-- Guarded runs never change the captured configuration. -/
theorem runSpendSteps_config (steps : List SpendStep) (v : SessionValidator) :
    (runSpendSteps v steps).config = v.config := by
  induction steps generalizing v with
  | nil => rfl
  | cons s rest ih =>
      have hstep : runSpendSteps v (s :: rest) = runSpendSteps (applySpendStep v s) rest := rfl
      rw [hstep, ih, applySpendStep_config]

/-! ## Claim theorems -/

/-- Claim C1: the `handleSend` dispatch of a `transferSOL` tool call submits
the transfer directly; no `SessionValidator` check sits on the path.  At a
concrete over-limit input — amount 1 SOL against the default 0.05 SOL
per-transaction limit, session balance 10 SOL — the dispatch submits the
transfer to the chain even though the validator, had it been invoked,
rejects that very request. -/
theorem handleSend_submits_unvalidated_transfer :
    handleSendTransferSOL (some "sess") 10000000000 "addrX" 1 =
      .submitted { fromPubkey := "sess", toPubkey := "addrX", lamports := 1000000000 } ∧
    (mkSessionValidator DEFAULT_SESSION_CONFIG).validateSOL "addrX" 1 =
      .error (.perTransactionLimitExceeded 1 (1/20)) := by
  constructor
  · norm_num [handleSendTransferSOL, transferSOL, LAMPORTS_PER_SOL]
  · norm_num [SessionValidator.validateSOL, allowlistBlocks, mkSessionValidator,
      DEFAULT_SESSION_CONFIG]

/-- Claim C2 counterexample: the claimed invariant quantifies over every
sequence of `validate` and `addSpent` calls, but `addSpentSOL` increments
unconditionally, so the single-call sequence `[addSpentSOL 1]` drives the SOL
spend counter to 1, above the default 0.1 SOL ceiling. -/
theorem spend_ceiling_not_invariant_counterexample :
    ¬ ((runGuardOps (mkSessionValidator DEFAULT_SESSION_CONFIG)
          [GuardOp.addSpentSOL 1]).spentSOL
        ≤ (mkSessionValidator DEFAULT_SESSION_CONFIG).config.maxSpendSOL) := by
  norm_num [runGuardOps, applyGuardOp, mkSessionValidator, SessionValidator.addSpentSOL,
    DEFAULT_SESSION_CONFIG]

/-- Claim C2 amended: when every increment is guarded — each `addSpent` is the
second half of an atomic validate-then-reserve step (`spendSOL`/`spendETH`),
rejections leaving the state unchanged — then starting from zero spend, any
sequence of such steps keeps both cumulative counters at or below their
configured ceilings, provided the ceilings are non-negative. -/
theorem guarded_spend_never_exceeds_ceiling (cfg : SessionConfig) (steps : List SpendStep)
    (hS : 0 ≤ cfg.maxSpendSOL) (hE : 0 ≤ cfg.maxSpendETH) :
    (runSpendSteps (mkSessionValidator cfg) steps).spentSOL ≤ cfg.maxSpendSOL ∧
    (runSpendSteps (mkSessionValidator cfg) steps).spentETH ≤ cfg.maxSpendETH := by
  have h := runSpendSteps_invariant steps (mkSessionValidator cfg)
    (by simpa [mkSessionValidator] using hS) (by simpa [mkSessionValidator] using hE)
  rwa [runSpendSteps_config] at h

/-- Claim C2 witness: a concrete guarded run — two approved 0.05 SOL spends
followed by a rejected 0.01 SOL spend — stays within the default ceilings. -/
theorem guarded_spend_never_exceeds_ceiling_witness :
    (0 : ℚ) ≤ DEFAULT_SESSION_CONFIG.maxSpendSOL ∧
    (0 : ℚ) ≤ DEFAULT_SESSION_CONFIG.maxSpendETH ∧
    ((runSpendSteps (mkSessionValidator DEFAULT_SESSION_CONFIG)
        [SpendStep.sol "addrA" (1/20), SpendStep.sol "addrA" (1/20),
         SpendStep.sol "addrA" (1/100)]).spentSOL ≤ DEFAULT_SESSION_CONFIG.maxSpendSOL ∧
     (runSpendSteps (mkSessionValidator DEFAULT_SESSION_CONFIG)
        [SpendStep.sol "addrA" (1/20), SpendStep.sol "addrA" (1/20),
         SpendStep.sol "addrA" (1/100)]).spentETH ≤ DEFAULT_SESSION_CONFIG.maxSpendETH) :=
  ⟨by norm_num [DEFAULT_SESSION_CONFIG], by norm_num [DEFAULT_SESSION_CONFIG],
   guarded_spend_never_exceeds_ceiling DEFAULT_SESSION_CONFIG
     [SpendStep.sol "addrA" (1/20), SpendStep.sol "addrA" (1/20), SpendStep.sol "addrA" (1/100)]
     (by norm_num [DEFAULT_SESSION_CONFIG]) (by norm_num [DEFAULT_SESSION_CONFIG])⟩

/-- Claim C3 counterexample: an approved `validateSOL` call leaves the
cumulative spend counter untouched — after approving a 0.05 SOL request from
zero spend, the counter is still 0, not 0 + 0.05 as the claim requires. -/
theorem authorize_does_not_reserve_counterexample :
    (mkSessionValidator DEFAULT_SESSION_CONFIG).validateSOL "addrA" (1/20) = .ok () ∧
    (applyGuardOp (mkSessionValidator DEFAULT_SESSION_CONFIG)
        (GuardOp.validateSOL "addrA" (1/20))).spentSOL
      ≠ (mkSessionValidator DEFAULT_SESSION_CONFIG).spentSOL + 1/20 := by
  constructor
  · norm_num [SessionValidator.validateSOL, allowlistBlocks, mkSessionValidator,
      DEFAULT_SESSION_CONFIG]
  · norm_num [applyGuardOp, mkSessionValidator]

/-- Claim C3 amended: validation and reservation are separate operations:
`validateSOL`/`validateETH` leave the instance state unchanged, and the
increment happens only in the distinct `addSpentSOL`/`addSpentETH` call; the
post-spend counter equals prior plus amount only for their explicit
composition (`spendSOL`/`spendETH`). -/
theorem reservation_is_separate_addSpent (v w : SessionValidator) (toA toB : String)
    (a b : ℚ) (v' w' : SessionValidator)
    (hs : v.spendSOL toA a = .ok v') (he : w.spendETH toB b = .ok w') :
    applyGuardOp v (GuardOp.validateSOL toA a) = v ∧
    (v.addSpentSOL a).spentSOL = v.spentSOL + a ∧
    v'.spentSOL = v.spentSOL + a ∧
    applyGuardOp w (GuardOp.validateETH toB b) = w ∧
    (w.addSpentETH b).spentETH = w.spentETH + b ∧
    w'.spentETH = w.spentETH + b := by
  have hsol : v'.spentSOL = v.spentSOL + a := by
    unfold SessionValidator.spendSOL at hs
    cases hv : v.validateSOL toA a with
    | error e => simp [hv] at hs
    | ok u =>
        simp [hv] at hs
        subst hs
        rfl
  have heth : w'.spentETH = w.spentETH + b := by
    unfold SessionValidator.spendETH at he
    cases hv : w.validateETH toB b with
    | error e => simp [hv] at he
    | ok u =>
        simp [hv] at he
        subst he
        rfl
  exact ⟨rfl, rfl, hsol, rfl, rfl, heth⟩

/-- Concrete post-state of an approved guarded 0.05 SOL spend from the default
configuration. -/
def witSol : SessionValidator :=
  { config := DEFAULT_SESSION_CONFIG, spentSOL := 1/20, spentETH := 0 }

/-- Concrete post-state of an approved guarded 0.005 ETH spend from the
default configuration. -/
def witEth : SessionValidator :=
  { config := DEFAULT_SESSION_CONFIG, spentSOL := 0, spentETH := 1/200 }

/-- Claim C3 amended, witness: concrete approved guarded spends on both
chains exhibit the separate-reservation behaviour. -/
theorem reservation_is_separate_addSpent_witness :
    applyGuardOp (mkSessionValidator DEFAULT_SESSION_CONFIG)
        (GuardOp.validateSOL "addrA" (1/20)) = mkSessionValidator DEFAULT_SESSION_CONFIG ∧
    witSol.spentSOL = (mkSessionValidator DEFAULT_SESSION_CONFIG).spentSOL + 1/20 ∧
    witEth.spentETH = (mkSessionValidator DEFAULT_SESSION_CONFIG).spentETH + 1/200 :=
  have hs : (mkSessionValidator DEFAULT_SESSION_CONFIG).spendSOL "addrA" (1/20) = .ok witSol := by
    norm_num [SessionValidator.spendSOL, SessionValidator.validateSOL, allowlistBlocks,
      SessionValidator.addSpentSOL, mkSessionValidator, DEFAULT_SESSION_CONFIG, witSol]
  have he : (mkSessionValidator DEFAULT_SESSION_CONFIG).spendETH "addrA" (1/200) = .ok witEth := by
    norm_num [SessionValidator.spendETH, SessionValidator.validateETH, allowlistBlocks,
      SessionValidator.addSpentETH, mkSessionValidator, DEFAULT_SESSION_CONFIG, witEth]
  have H := reservation_is_separate_addSpent
    (mkSessionValidator DEFAULT_SESSION_CONFIG) (mkSessionValidator DEFAULT_SESSION_CONFIG)
    "addrA" "addrA" (1/20) (1/200) witSol witEth hs he
  ⟨H.1, H.2.2.1, H.2.2.2.2.2⟩

/-- Configuration violating the `maxPerTransaction ≤ maxTotal` invariant on
both chains. -/
def badConfig : SessionConfig :=
  { maxSpendSOL := 1/100, maxSpendETH := 1/100, maxPerTxSOL := 1, maxPerTxETH := 1 }

/-- Claim C4 counterexample: the `SessionValidator` constructor performs no
validation, so a config with `maxPerTxSOL > maxSpendSOL` is accepted:
construction yields a fully functional validator holding the violating
config verbatim, which even approves a small request. -/
theorem config_not_rejected_at_construction_counterexample :
    badConfig.maxPerTxSOL > badConfig.maxSpendSOL ∧
    (mkSessionValidator badConfig).config = badConfig ∧
    (mkSessionValidator badConfig).validateSOL "addrA" (1/200) = .ok () := by
  refine ⟨by norm_num [badConfig], rfl, ?_⟩
  norm_num [SessionValidator.validateSOL, allowlistBlocks, mkSessionValidator, badConfig]

/-- Claim C4 amended: construction never fails and never clamps: any config is
stored verbatim with zero counters, and for a violating config the excess
headroom is caught only later, at validation time, by the session-limit
check rather than at construction. -/
theorem constructor_stores_config_unvalidated (cfg : SessionConfig) (toAddress : String)
    (a : ℚ) (hblock : allowlistBlocks cfg.allowedMerchantsSOL toAddress = false)
    (h1 : a ≤ cfg.maxPerTxSOL) (h2 : cfg.maxSpendSOL < a) :
    (mkSessionValidator cfg).config = cfg ∧
    (mkSessionValidator cfg).spentSOL = 0 ∧
    (mkSessionValidator cfg).spentETH = 0 ∧
    (mkSessionValidator cfg).validateSOL toAddress a =
      .error (.sessionLimitExceeded cfg.maxSpendSOL) := by
  refine ⟨rfl, rfl, rfl, ?_⟩
  unfold SessionValidator.validateSOL mkSessionValidator
  rw [if_neg (by simp [hblock]), if_neg (not_lt.2 h1), if_pos (by simpa using h2)]
  simp

/-- Claim C4 amended, witness: the violating `badConfig` is accepted at
construction and an amount between the two limits is rejected by the
session-limit check. -/
theorem constructor_stores_config_unvalidated_witness :
    allowlistBlocks badConfig.allowedMerchantsSOL "addrA" = false ∧
    (1/20 : ℚ) ≤ badConfig.maxPerTxSOL ∧
    badConfig.maxSpendSOL < (1/20 : ℚ) ∧
    (mkSessionValidator badConfig).validateSOL "addrA" (1/20) =
      .error (.sessionLimitExceeded badConfig.maxSpendSOL) :=
  ⟨rfl, by norm_num [badConfig], by norm_num [badConfig],
   (constructor_stores_config_unvalidated badConfig "addrA" (1/20) rfl
     (by norm_num [badConfig]) (by norm_num [badConfig])).2.2.2⟩

/-- Claim C5: limits are inclusive ceilings on both chains: any amount at or
under the per-transaction limit whose addition keeps the cumulative total at
or under the session ceiling is approved (equality included), an amount
strictly above the per-transaction limit is rejected with the per-transaction
error, and an amount within the per-transaction limit that pushes the
cumulative total strictly above the ceiling is rejected with the
session-limit error. -/
theorem limits_are_inclusive_ceilings (v : SessionValidator) (toAddress : String)
    (hsol : allowlistBlocks v.config.allowedMerchantsSOL toAddress = false)
    (heth : allowlistBlocks v.config.allowedMerchantsETH toAddress = false) :
    (∀ a : ℚ, a ≤ v.config.maxPerTxSOL → v.spentSOL + a ≤ v.config.maxSpendSOL →
       v.validateSOL toAddress a = .ok ()) ∧
    (∀ a : ℚ, v.config.maxPerTxSOL < a →
       v.validateSOL toAddress a = .error (.perTransactionLimitExceeded a v.config.maxPerTxSOL)) ∧
    (∀ a : ℚ, a ≤ v.config.maxPerTxSOL → v.config.maxSpendSOL < v.spentSOL + a →
       v.validateSOL toAddress a =
         .error (.sessionLimitExceeded (v.config.maxSpendSOL - v.spentSOL))) ∧
    (∀ a : ℚ, a ≤ v.config.maxPerTxETH → v.spentETH + a ≤ v.config.maxSpendETH →
       v.validateETH toAddress a = .ok ()) ∧
    (∀ a : ℚ, v.config.maxPerTxETH < a →
       v.validateETH toAddress a = .error (.perTransactionLimitExceeded a v.config.maxPerTxETH)) ∧
    (∀ a : ℚ, a ≤ v.config.maxPerTxETH → v.config.maxSpendETH < v.spentETH + a →
       v.validateETH toAddress a =
         .error (.sessionLimitExceeded (v.config.maxSpendETH - v.spentETH))) := by
  refine ⟨?_, ?_, ?_, ?_, ?_, ?_⟩
  · intro a h1 h2
    exact (validateSOL_ok_iff v toAddress a).mpr ⟨hsol, h1, h2⟩
  · intro a h1
    unfold SessionValidator.validateSOL
    rw [if_neg (by simp [hsol]), if_pos h1]
  · intro a h1 h2
    unfold SessionValidator.validateSOL
    rw [if_neg (by simp [hsol]), if_neg (not_lt.2 h1), if_pos h2]
  · intro a h1 h2
    exact (validateETH_ok_iff v toAddress a).mpr ⟨heth, h1, h2⟩
  · intro a h1
    unfold SessionValidator.validateETH
    rw [if_neg (by simp [heth]), if_pos h1]
  · intro a h1 h2
    unfold SessionValidator.validateETH
    rw [if_neg (by simp [heth]), if_neg (not_lt.2 h1), if_pos h2]

/-- Validator state sitting exactly one approved transaction away from the
default SOL session ceiling: 0.05 already spent, so 0.05 more meets both
limits with equality. -/
def boundaryValidator : SessionValidator :=
  { config := DEFAULT_SESSION_CONFIG, spentSOL := 1/20, spentETH := 1/200 }

/-- Validator state whose next in-per-tx-limit SOL request overruns the
default session ceiling. -/
def overValidator : SessionValidator :=
  { config := DEFAULT_SESSION_CONFIG, spentSOL := 3/40, spentETH := 0 }

/-- Claim C5 witness: at the default limits, an amount exactly equal to the
per-transaction limit whose addition lands exactly on the session ceiling is
approved; an amount 0.005 above the per-transaction limit is rejected; an
in-limit amount overrunning the ceiling is rejected. -/
theorem limits_are_inclusive_ceilings_witness :
    boundaryValidator.validateSOL "addrA" (1/20) = .ok () ∧
    boundaryValidator.validateSOL "addrA" (11/200) =
      .error (.perTransactionLimitExceeded (11/200) (1/20)) ∧
    overValidator.validateSOL "addrA" (1/20) =
      .error (.sessionLimitExceeded (1/10 - 3/40)) ∧
    boundaryValidator.validateETH "addrA" (1/200) = .ok () :=
  have hB := limits_are_inclusive_ceilings boundaryValidator "addrA" rfl rfl
  have hO := limits_are_inclusive_ceilings overValidator "addrA" rfl rfl
  ⟨hB.1 (1/20) (by norm_num [boundaryValidator, DEFAULT_SESSION_CONFIG])
      (by norm_num [boundaryValidator, DEFAULT_SESSION_CONFIG]),
   by
     have h := hB.2.1 (11/200) (by norm_num [boundaryValidator, DEFAULT_SESSION_CONFIG])
     simpa [boundaryValidator, DEFAULT_SESSION_CONFIG] using h,
   by
     have h := hO.2.2.1 (1/20) (by norm_num [overValidator, DEFAULT_SESSION_CONFIG])
       (by norm_num [overValidator, DEFAULT_SESSION_CONFIG])
     simpa [overValidator, DEFAULT_SESSION_CONFIG] using h,
   hB.2.2.2.1 (1/200) (by norm_num [boundaryValidator, DEFAULT_SESSION_CONFIG])
      (by norm_num [boundaryValidator, DEFAULT_SESSION_CONFIG])⟩

/-- Claim C6: a configured non-empty allow-list rejects every recipient
outside it with the recipient-not-allowed error, whatever the amount; a
missing or empty allow-list imposes no restriction — the validation result
does not depend on the recipient at all. -/
theorem allowlist_membership_enforced (v : SessionValidator) (toA toB : String) (a : ℚ) :
    (∀ l : List String, v.config.allowedMerchantsSOL = some l → 0 < l.length →
       l.contains toA = false →
       v.validateSOL toA a = .error (.recipientNotAllowed toA)) ∧
    ((v.config.allowedMerchantsSOL = none ∨ v.config.allowedMerchantsSOL = some []) →
       v.validateSOL toA a = v.validateSOL toB a) ∧
    (∀ l : List String, v.config.allowedMerchantsETH = some l → 0 < l.length →
       l.contains toA = false →
       v.validateETH toA a = .error (.recipientNotAllowed toA)) ∧
    ((v.config.allowedMerchantsETH = none ∨ v.config.allowedMerchantsETH = some []) →
       v.validateETH toA a = v.validateETH toB a) := by
  refine ⟨?_, ?_, ?_, ?_⟩
  · intro l hl hlen hmem
    unfold SessionValidator.validateSOL
    rw [if_pos (by simp [allowlistBlocks, hl, hlen]; simpa using hmem)]
  · intro h
    unfold SessionValidator.validateSOL
    rcases h with h | h <;> simp [allowlistBlocks, h]
  · intro l hl hlen hmem
    unfold SessionValidator.validateETH
    rw [if_pos (by simp [allowlistBlocks, hl, hlen]; simpa using hmem)]
  · intro h
    unfold SessionValidator.validateETH
    rcases h with h | h <;> simp [allowlistBlocks, h]

/-- Session configuration restricting both chains to the single recipient
"addrA". -/
def allowCfg : SessionConfig :=
  { DEFAULT_SESSION_CONFIG with
    allowedMerchantsSOL := some ["addrA"]
    allowedMerchantsETH := some ["addrA"] }

/-- Claim C6 witness: with allow-list `["addrA"]`, a 0.01 SOL request to
"addrB" is rejected as recipient-not-allowed although far below every numeric
limit, and with no allow-list configured the result is independent of the
recipient. -/
theorem allowlist_membership_enforced_witness :
    (mkSessionValidator allowCfg).validateSOL "addrB" (1/100) =
      .error (.recipientNotAllowed "addrB") ∧
    (mkSessionValidator allowCfg).validateETH "addrB" (1/1000) =
      .error (.recipientNotAllowed "addrB") ∧
    (mkSessionValidator DEFAULT_SESSION_CONFIG).validateSOL "addrB" (1/100) =
      (mkSessionValidator DEFAULT_SESSION_CONFIG).validateSOL "addrC" (1/100) :=
  have hA := allowlist_membership_enforced (mkSessionValidator allowCfg) "addrB" "addrB" (1/100)
  have hA2 := allowlist_membership_enforced (mkSessionValidator allowCfg) "addrB" "addrB" (1/1000)
  have hD := allowlist_membership_enforced (mkSessionValidator DEFAULT_SESSION_CONFIG)
    "addrB" "addrC" (1/100)
  ⟨hA.1 ["addrA"] rfl (by norm_num) (by simp),
   hA2.2.2.1 ["addrA"] rfl (by norm_num) (by simp),
   hD.2.1 (Or.inl rfl)⟩

/-- Claim C7 counterexample: `transferSOL` performs no precision check: a
request for `10^-10` SOL — a tenth of a lamport — succeeds (given ample
balance) and submits the fractional lamport value `1/10` instead of being
rejected. -/
theorem transferSOL_no_precision_check_counterexample :
    transferSOL 1000000000 "sess" "dest" (1/10000000000) =
      .ok { fromPubkey := "sess", toPubkey := "dest", lamports := 1/10 } ∧
    ¬ ∃ n : ℤ, ((1 : ℚ)/10) = (n : ℚ) := by
  constructor
  · norm_num [transferSOL, LAMPORTS_PER_SOL]
  · rintro ⟨n, hn⟩
    have h10 : (1 : ℚ) = 10 * (n : ℚ) := by linarith
    have hz : (1 : ℤ) = 10 * n := by exact_mod_cast h10
    omega

/-- Claim C7 amended: the lamport value submitted by a successful
`transferSOL` call equals `amount × 10^9` under exact rational scaling, but
no integrality check exists — whatever that product is, whole or fractional,
it is submitted as long as the balance covers it. -/
theorem transferSOL_exact_scaling_unchecked (bal : ℚ) (sender toAddress : String)
    (a : ℚ) (ix : SolTransferIx) (h : transferSOL bal sender toAddress a = .ok ix) :
    ix.lamports = a * LAMPORTS_PER_SOL ∧ ix.fromPubkey = sender ∧ ix.toPubkey = toAddress := by
  unfold transferSOL at h
  dsimp only at h
  split_ifs at h with hb
  rw [Except.ok.injEq] at h
  subst h
  exact ⟨rfl, rfl, rfl⟩

/-- Instruction built by a successful half-SOL transfer. -/
def witIx : SolTransferIx :=
  { fromPubkey := "sess", toPubkey := "dest", lamports := 500000000 }

/-- Claim C7 amended, witness: a concrete successful transfer of 0.5 SOL
submits exactly `0.5 × 10^9` lamports. -/
theorem transferSOL_exact_scaling_unchecked_witness :
    transferSOL 1000000000 "sess" "dest" (1/2) = .ok witIx ∧
    witIx.lamports = (1/2) * LAMPORTS_PER_SOL :=
  have h : transferSOL 1000000000 "sess" "dest" (1/2) = .ok witIx := by
    norm_num [transferSOL, LAMPORTS_PER_SOL, witIx]
  ⟨h, (transferSOL_exact_scaling_unchecked 1000000000 "sess" "dest" (1/2) witIx h).1⟩

/-- Claim C8: key restoration inverts generation: for every generated
session-key set, restoring the Solana keypair from the persisted secret array
re-derives a public key whose base58 encoding equals the generated
`solAddress`, and deriving the account address from the persisted Ethereum
private key yields the generated `ethAddress` — for any deterministic
derivation and encoding primitives and any entropy. -/
theorem session_keys_roundtrip (derivePub : List ℕ → List ℕ) (toBase58 : List ℕ → String)
    (privateKeyToAddress : String → String) (solEntropy : List ℕ) (ethEntropy : String) :
    toBase58 (restoreSolanaKeypair derivePub
        (generateSessionKeys derivePub toBase58 privateKeyToAddress solEntropy
          ethEntropy).solSecret).publicKey
      = (generateSessionKeys derivePub toBase58 privateKeyToAddress solEntropy
          ethEntropy).solAddress ∧
    getEthAddress privateKeyToAddress
        (generateSessionKeys derivePub toBase58 privateKeyToAddress solEntropy
          ethEntropy).ethKey
      = (generateSessionKeys derivePub toBase58 privateKeyToAddress solEntropy
          ethEntropy).ethAddress :=
  ⟨rfl, rfl⟩

/-- Claim C9: the `handleSend` dispatcher silently drops a tool call whose
name is outside its handled vocabulary: a `swapTokens` function call — with
both session keys present and healthy transfer plumbing — appends zero
agent-visible chat messages instead of the required no-handler message. -/
theorem handleSend_unknown_tool_silently_dropped :
    handleSendMessages (some "solKey") (some "ethKey") (.ok "sig") (.ok "hash")
      (Candidate.functionCall "swapTokens" "addrA" (1/100)) = [] := by
  simp [handleSendMessages]

end AgentProtocol
